import Mathlib

/-!
Shallow embedding of `main.py` (a minimal ray tracer emitting a P3 text image).

Modelling conventions:
* Python floats are modelled as exact rationals (`ℚ`). All float literals in
  the source (`0.5`, `0.7`, `255.999`, …) are exactly representable here.
* Python `math.sqrt` is modelled by `Rat.sqrt` (exact on perfect squares,
  nonnegative, and positive on positive inputs).
* Fallible Python operations return `Except PyErr`: an uncaught Python
  exception is `.error`, a normal return is `.ok`.
* `print(...)` appends one line to the output stream; the stream is modelled
  as a `List String` of lines (the trailing `"\n"` is the line separator).
* Python tuples are immutable: item assignment raises `TypeError`.
-/

namespace RayTrace

/-- Python runtime exceptions that the program under study can raise. -/
inductive PyErr where
  | assertionError
  | typeError
  | zeroDivisionError
deriving DecidableEq, Repr

/-- Python float true division `a / b`: raises `ZeroDivisionError` when the
divisor is zero (for both `0` and `0.0`), otherwise returns the quotient. -/
def pyDiv (a b : ℚ) : Except PyErr ℚ :=
  if b = 0 then .error .zeroDivisionError else .ok (a / b)

/-- Python `int(...)` applied to a float: truncation toward zero. -/
def pyInt (q : ℚ) : ℤ :=
  if 0 ≤ q then ⌊q⌋ else ⌈q⌉

/-- Python `math.sqrt` under the rational model of floats, via `Rat.sqrt`. -/
def pySqrt (q : ℚ) : ℚ := Rat.sqrt q

/-- The backing store of `Vec3.e`: a Python tuple of three floats,
as assigned by `Vec3.__init__` (`self.e = (x, y, z)`). -/
abbrev Tuple3 := ℚ × ℚ × ℚ

/-- Python tuple item assignment `t[i] = x`: tuples are immutable, so this
always raises `TypeError` (regardless of index and value). -/
def Tuple3.setItem (_t : Tuple3) (_i : ℕ) (_x : ℚ) : Except PyErr Tuple3 :=
  .error .typeError

/-- Source `class Vec3`: holds the tuple `e` of three float components. -/
structure Vec3 where
  e : Tuple3
deriving DecidableEq, Repr

/-- Source `Vec3.__init__(x, y, z)`: stores `self.e = (x, y, z)`. -/
def Vec3.mk3 (x y z : ℚ) : Vec3 := ⟨(x, y, z)⟩

/-- Property `Vec3.x`: `self.e[0]`. -/
def Vec3.x (v : Vec3) : ℚ := v.e.1

/-- Property `Vec3.y`: `self.e[1]`. -/
def Vec3.y (v : Vec3) : ℚ := v.e.2.1

/-- Property `Vec3.z`: `self.e[2]`. -/
def Vec3.z (v : Vec3) : ℚ := v.e.2.2

/-- Source `Vec3.__neg__`: `Vec3(-self.x, -self.y, -self.z)`. -/
def Vec3.neg (v : Vec3) : Vec3 := .mk3 (-v.x) (-v.y) (-v.z)

/-- Source `Vec3.__getitem__(index)`: `assert 0 <= index < 3` (an index outside
`[0, 3)` raises `AssertionError`), then `self.e[index]`. -/
def Vec3.getitem (v : Vec3) (index : ℤ) : Except PyErr ℚ :=
  if 0 ≤ index ∧ index < 3 then
    .ok (if index = 0 then v.e.1 else if index = 1 then v.e.2.1 else v.e.2.2)
  else
    .error .assertionError

/-- Source `Vec3.len_squared()`: `e[0]*e[0] + e[1]*e[1] + e[2]*e[2]`. -/
def Vec3.len_squared (v : Vec3) : ℚ :=
  v.e.1 * v.e.1 + v.e.2.1 * v.e.2.1 + v.e.2.2 * v.e.2.2

/-- Source `Vec3.length()`: `math.sqrt(self.len_squared())`. -/
def Vec3.length (v : Vec3) : ℚ := pySqrt v.len_squared

/-- Source `Vec3.__iadd__(other)`: executes `self.e[0] += other.e[0]` and so on.
`self.e` is a tuple, so the first item assignment raises `TypeError`. -/
def Vec3.iadd (self other : Vec3) : Except PyErr Vec3 := do
  let e0 ← self.e.setItem 0 (self.e.1 + other.e.1)
  let e1 ← e0.setItem 1 (e0.2.1 + other.e.2.1)
  let e2 ← e1.setItem 2 (e1.2.2 + other.e.2.2)
  pure ⟨e2⟩

/-- Source `Vec3.__imul__(t)`: executes `self.e[0] *= t` and so on.
`self.e` is a tuple, so the first item assignment raises `TypeError`. -/
def Vec3.imul (self : Vec3) (t : ℚ) : Except PyErr Vec3 := do
  let e0 ← self.e.setItem 0 (self.e.1 * t)
  let e1 ← e0.setItem 1 (e0.2.1 * t)
  let e2 ← e1.setItem 2 (e1.2.2 * t)
  pure ⟨e2⟩

/-- Source `Vec3.__add__(other)`: `Vec3(self.x + other.x, self.y + other.y, self.z + other.z)`. -/
def Vec3.add (self other : Vec3) : Vec3 :=
  .mk3 (self.x + other.x) (self.y + other.y) (self.z + other.z)

/-- The argument of `Vec3.__mul__` / `Color.__mul__`: a vector or a scalar
(Python `float` and `int` scalars both collapse to `ℚ` in this model). -/
inductive VecOrScalar where
  | vec (v : Vec3)
  | scalar (t : ℚ)

/-- Source `Vec3.__mul__(other)`: both `isinstance` branches build
`Vec3(self.x * other, self.y * other, self.z * other)`.  For a scalar `other`
this is component-wise scaling; when `other` is itself a `Vec3`, the products
are `float * Vec3`, which Python rejects with `TypeError` (neither
`float.__mul__` nor any `Vec3.__rmul__` handles that pair). -/
def Vec3.mul (self : Vec3) (other : VecOrScalar) : Except PyErr Vec3 :=
  match other with
  | .scalar t => .ok (.mk3 (self.x * t) (self.y * t) (self.z * t))
  | .vec _ => .error .typeError

/-- Source `Vec3.__truediv__(t)`: `self * (1.0 / t)`; the float division raises
`ZeroDivisionError` when `t` is zero. -/
def Vec3.truediv (self : Vec3) (t : ℚ) : Except PyErr Vec3 := do
  let r ← pyDiv 1 t
  self.mul (.scalar r)

/-- Source `Vec3.__sub__(other)`: component-wise difference over the tuples. -/
def Vec3.sub (self other : Vec3) : Vec3 :=
  .mk3 (self.e.1 - other.e.1) (self.e.2.1 - other.e.2.1) (self.e.2.2 - other.e.2.2)

/-- Source `Vec3.cross(other)`: the right-handed 3D cross product. -/
def Vec3.cross (self other : Vec3) : Vec3 :=
  .mk3 (self.e.2.1 * other.e.2.2 - self.e.2.2 * other.e.2.1)
    (self.e.2.2 * other.e.1 - self.e.1 * other.e.2.2)
    (self.e.1 * other.e.2.1 - self.e.2.1 * other.e.1)

/-- Source `Vec3.unit_vector()`: `self / self.length()`. -/
def Vec3.unit_vector (self : Vec3) : Except PyErr Vec3 :=
  self.truediv self.length

/-- Source `class Color(Vec3)`: same data, extra methods (modelled in namespace `Color`). -/
abbrev Color := Vec3

/-- Source `class Point3(Vec3)`: a pure alias. -/
abbrev Point3 := Vec3

/-- Source `Color.write_color`: computes `int(255.999 * channel)` for the three
channels and prints them space-separated; this is the text of the emitted
line (the newline added by `print` is the line separator of the stream). -/
def Color.write_color (self : Color) : String :=
  let rbyte := pyInt (255.999 * self.e.1)
  let gbyte := pyInt (255.999 * self.e.2.1)
  let bbyte := pyInt (255.999 * self.e.2.2)
  toString rbyte ++ " " ++ toString gbyte ++ " " ++ toString bbyte

/-- Source `Color.__mul__(other)`: both branches build
`Color(self.x * other, self.y * other, self.z * other)`.  For a scalar this
scales the channels; when `other` is a `Color`, the products are
`float * Color`, which Python rejects with `TypeError` (no `__rmul__`). -/
def Color.mul (self : Color) (other : VecOrScalar) : Except PyErr Color :=
  match other with
  | .scalar t => .ok (.mk3 (self.x * t) (self.y * t) (self.z * t))
  | .vec _ => .error .typeError

/-- Source `Color.__add__(other)`: `assert isinstance(other, Color)` (satisfied here
by typing), then `Color(self.x + other.x, self.y + other.y, self.z + other.z)`. -/
def Color.add (self other : Color) : Color :=
  Vec3.mk3 (self.x + other.x) (self.y + other.y) (self.z + other.z)

/-- Source `Ray`: dataclass of an origin point and a direction vector. -/
structure Ray where
  origin : Point3
  direction : Vec3

/-- Source `ray_color(ray)`: normalizes the direction, maps its y-component to
`a = 0.5 * (unit_direction.y + 1.0)`, and returns the blend
`Color(1,1,1) * (1.0 - a) + Color(0.5,0.7,1.0) * a`. -/
def ray_color (ray : Ray) : Except PyErr Color := do
  let unit_direction ← ray.direction.unit_vector
  let a := 0.5 * (unit_direction.y + 1)
  let white ← Color.mul (Vec3.mk3 1 1 1) (.scalar (1 - a))
  let sky ← Color.mul (Vec3.mk3 0.5 0.7 1) (.scalar a)
  pure (Color.add white sky)

/-! The `__main__` block.  Scalar divisions between Python numbers are
`pyDiv` (they raise on a zero divisor), so the computed constants live in
`Except PyErr`. -/

/-- Source `aspect_ratio = 16 / 9` (float division of two ints). -/
def aspect_ratio : Except PyErr ℚ := pyDiv 16 9

/-- Source `image_width = 400`. -/
def image_width : ℤ := 400

/-- Source `image_height = h if (h := int(image_width / aspect_ratio)) >= 1 else 1`. -/
def image_height : Except PyErr ℤ := do
  let ar ← aspect_ratio
  let q ← pyDiv (image_width : ℚ) ar
  let h := pyInt q
  pure (if 1 ≤ h then h else 1)

/-- Source `focal_length = 1.0`. -/
def focal_length : ℚ := 1

/-- Source `viewport_height = 2.0`. -/
def viewport_height : ℚ := 2

/-- Source `viewport_width = viewport_height * (float(image_width) / image_height)`. -/
def viewport_width : Except PyErr ℚ := do
  let h ← image_height
  let r ← pyDiv (image_width : ℚ) (h : ℚ)
  pure (viewport_height * r)

/-- Source `camera_center = Point3(0, 0, 0)`. -/
def camera_center : Point3 := Vec3.mk3 0 0 0

/-- Source `viewport_u = Vec3(viewport_width, 0, 0)`. -/
def viewport_u : Except PyErr Vec3 := do
  let w ← viewport_width
  pure (Vec3.mk3 w 0 0)

/-- Source `viewport_v = Vec3(0, -viewport_height, 0)`. -/
def viewport_v : Vec3 := Vec3.mk3 0 (-viewport_height) 0

/-- Source `pixel_delta_u = viewport_u / image_width`. -/
def pixel_delta_u : Except PyErr Vec3 := do
  let u ← viewport_u
  u.truediv (image_width : ℚ)

/-- Source `pixel_delta_v = viewport_v / image_height`. -/
def pixel_delta_v : Except PyErr Vec3 := do
  let h ← image_height
  viewport_v.truediv (h : ℚ)

/-- Source `viewport_upper_left = camera_center - Vec3(0, 0, focal_length) - viewport_u/2 - viewport_v/2`. -/
def viewport_upper_left : Except PyErr Vec3 := do
  let u ← viewport_u
  let u2 ← u.truediv 2
  let v2 ← viewport_v.truediv 2
  pure (((camera_center.sub (Vec3.mk3 0 0 focal_length)).sub u2).sub v2)

/-- Source `pixel00_loc = viewport_upper_left + (pixel_delta_u + pixel_delta_v) * 0.5`. -/
def pixel00_loc : Except PyErr Vec3 := do
  let ul ← viewport_upper_left
  let du ← pixel_delta_u
  let dv ← pixel_delta_v
  let half ← (du.add dv).mul (.scalar 0.5)
  pure (ul.add half)

/-- Source `img_width = img_height = 256`: the loop bounds actually used. -/
def img_width : ℕ := 256

/-- Source `img_height = 256` (assigned together with `img_width`). -/
def img_height : ℕ := 256

/-- Source `print(f"P3\n{img_width} {img_height}\n255")`: the three header lines. -/
def header_lines : List String :=
  ["P3", toString img_width ++ " " ++ toString img_height, "255"]

/-- One iteration of the pixel loop body: build the pixel center from
`pixel00_loc`, the deltas, and the indices, shade the ray, and return the
line printed by `write_color`. -/
def pixel_line (p00 du dv : Vec3) (i j : ℕ) : Except PyErr String := do
  let su ← du.mul (.scalar (i : ℚ))
  let sv ← dv.mul (.scalar (j : ℚ))
  let pixel_center := (p00.add su).add sv
  let ray_direction := pixel_center.sub camera_center
  let pixel_color ← ray_color ⟨camera_center, ray_direction⟩
  pure (Color.write_color pixel_color)

/-- The double pixel loop: `for j in range(img_height): for i in range(img_width)`,
one emitted line per pixel, rows top to bottom, columns left to right. -/
def render_lines : Except PyErr (List String) := do
  let p00 ← pixel00_loc
  let du ← pixel_delta_u
  let dv ← pixel_delta_v
  let rows ← (List.range img_height).mapM (fun j =>
    (List.range img_width).mapM (fun i => pixel_line p00 du dv i j))
  pure rows.flatten

/-- The whole stdout stream of `__main__`: header lines, then pixel lines.
(The progress log goes to stderr, a separate stream.) -/
def mainOutput : Except PyErr (List String) := do
  let pix ← render_lines
  pure (header_lines ++ pix)

/-- One execution of the program: the source reads no input and uses no
randomness, so a run is a function of the (ignored) run index alone. -/
def runProgram (_run : ℕ) : Except PyErr (List String) := mainOutput

/-! Basic reduction lemmas for the `Except` monad as used above. -/

/-- Bind on a successful `Except` value steps into the continuation. -/
theorem exceptBind_ok {ε α β : Type} (a : α) (f : α → Except ε β) :
    (Except.ok a >>= f) = f a := rfl

/-- Bind on a failed `Except` value propagates the error. -/
theorem exceptBind_error {ε α β : Type} (e : ε) (f : α → Except ε β) :
    ((Except.error e : Except ε α) >>= f) = .error e := rfl

/-- Pure in the `Except` monad is `Except.ok`. -/
theorem exceptPure_eq {ε α : Type} (a : α) :
    (pure a : Except ε α) = .ok a := rfl

/-! Arithmetic facts about the modelled primitives. -/

/-- The modelled `math.sqrt` is positive on positive inputs. -/
theorem pySqrt_pos (q : ℚ) (h : 0 < q) : 0 < pySqrt q := by
  rw [pySqrt, Rat.sqrt, Rat.mkRat_eq_divInt, Rat.divInt_eq_div]
  apply div_pos
  · have hnum : 0 < q.num := Rat.num_pos.2 h
    have hs : 0 < Int.sqrt q.num := by
      rw [Int.sqrt]
      have : 0 < Nat.sqrt q.num.toNat := Nat.sqrt_pos.2 (by omega)
      exact_mod_cast this
    exact_mod_cast hs
  · have : 0 < Nat.sqrt q.den := Nat.sqrt_pos.2 q.den_pos
    exact_mod_cast this

/-- Truncation agrees with the floor on nonnegative inputs. -/
theorem pyInt_eq_floor (q : ℚ) (h : 0 ≤ q) : pyInt q = ⌊q⌋ := if_pos h

/-- The squared length of a vector is at least the square of its z-component. -/
theorem len_squared_ge_z_sq (v : Vec3) : v.z * v.z ≤ v.len_squared := by
  obtain ⟨⟨a1, a2, a3⟩⟩ := v
  simp only [Vec3.len_squared, Vec3.z]
  nlinarith [sq_nonneg a1, sq_nonneg a2]

/-- The blend parameter `a = 0.5 * (unit_direction.y + 1.0)` computed inside
`ray_color`, written out through the definition of `unit_vector`. -/
def blend_param (r : Ray) : ℚ :=
  0.5 * (r.direction.y * (1 / r.direction.length) + 1)

/-- Evaluation of `ray_color` on any ray whose direction has nonzero computed
length: the returned color is the blend of white and skyblue with parameter
`blend_param`. -/
theorem ray_color_eq (r : Ray) (h : r.direction.length ≠ 0) :
    ray_color r = .ok (Vec3.mk3
      (1 * (1 - blend_param r) + 0.5 * blend_param r)
      (1 * (1 - blend_param r) + 0.7 * blend_param r)
      (1 * (1 - blend_param r) + 1 * blend_param r)) := by
  simp only [ray_color, Vec3.unit_vector, Vec3.truediv, pyDiv, if_neg h,
    exceptBind_ok, Vec3.mul, Color.mul, Color.add, exceptPure_eq,
    Vec3.mk3, Vec3.x, Vec3.y, Vec3.z, blend_param]

/-- On any ray whose direction has nonzero computed length, `ray_color`
succeeds, the blue channel of the result is exactly `1`, and the serialized
pixel line ends in `"255"`. -/
theorem ray_color_blue_one (r : Ray) (h : r.direction.length ≠ 0) :
    ∃ c, ray_color r = .ok c ∧ c.z = 1 ∧
      ∃ s, Color.write_color c = s ++ "255" := by
  refine ⟨_, ray_color_eq r h, ?_, ?_⟩
  · simp only [Vec3.mk3, Vec3.z]
    ring
  · refine ⟨toString (pyInt (255.999 * (1 * (1 - blend_param r) + 0.5 * blend_param r)))
      ++ " " ++ toString (pyInt (255.999 * (1 * (1 - blend_param r) + 0.7 * blend_param r)))
      ++ " ", ?_⟩
    simp only [Color.write_color, Vec3.mk3]
    have hb : (255.999 : ℚ) * (1 * (1 - blend_param r) + 1 * blend_param r) = 255.999 := by
      ring
    have h255 : pyInt (255.999 : ℚ) = 255 := by
      rw [pyInt_eq_floor _ (by norm_num)]
      norm_num [Int.floor_eq_iff]
    rw [hb, h255]
    rfl

/-! Concrete values of the viewport constants computed by `__main__`. -/

/-- The aspect ratio evaluates to `16/9`. -/
theorem aspect_ratio_eq : aspect_ratio = .ok (16 / 9) := by
  rw [aspect_ratio, pyDiv, if_neg (by norm_num : ¬(9 : ℚ) = 0)]

/-- The computed image height is `int(400 / (16/9)) = 225`. -/
theorem image_height_eq : image_height = .ok 225 := by
  rw [image_height, aspect_ratio_eq, exceptBind_ok, pyDiv,
    if_neg (by norm_num : ¬(16 / 9 : ℚ) = 0), exceptBind_ok,
    show ((image_width : ℚ) / (16 / 9 : ℚ)) = ((225 : ℤ) : ℚ) by
      rw [image_width]; norm_num,
    show pyInt ((225 : ℤ) : ℚ) = 225 by
      rw [pyInt_eq_floor _ (by norm_num), Int.floor_intCast]]
  rfl

/-- The viewport width evaluates to `2 * (400 / 225) = 32/9`. -/
theorem viewport_width_eq : viewport_width = .ok (32 / 9) := by
  rw [viewport_width, image_height_eq, exceptBind_ok, pyDiv,
    if_neg (by norm_num : ¬(((225 : ℤ) : ℚ)) = 0), exceptBind_ok,
    exceptPure_eq, viewport_height,
    show (2 : ℚ) * ((image_width : ℚ) / ((225 : ℤ) : ℚ)) = 32 / 9 by
      rw [image_width]; norm_num]

/-- The horizontal viewport basis vector is `(32/9, 0, 0)`. -/
theorem viewport_u_eq : viewport_u = .ok (Vec3.mk3 (32 / 9) 0 0) := by
  rw [viewport_u, viewport_width_eq, exceptBind_ok, exceptPure_eq]

/-- The horizontal pixel delta is `(2/225, 0, 0)`. -/
theorem pixel_delta_u_eq : pixel_delta_u = .ok (Vec3.mk3 (2 / 225) 0 0) := by
  rw [pixel_delta_u, viewport_u_eq, exceptBind_ok, Vec3.truediv, pyDiv,
    if_neg (by rw [image_width]; norm_num : ¬((image_width : ℤ) : ℚ) = 0),
    exceptBind_ok, Vec3.mul]
  simp only [Vec3.mk3, Vec3.x, Vec3.y, Vec3.z, Except.ok.injEq, Vec3.mk.injEq,
    Prod.mk.injEq, image_width]
  norm_num

/-- The vertical pixel delta is `(0, -2/225, 0)`. -/
theorem pixel_delta_v_eq : pixel_delta_v = .ok (Vec3.mk3 0 (-2 / 225) 0) := by
  rw [pixel_delta_v, image_height_eq, exceptBind_ok, Vec3.truediv, pyDiv,
    if_neg (by norm_num : ¬(((225 : ℤ) : ℚ)) = 0), exceptBind_ok, Vec3.mul]
  simp only [viewport_v, viewport_height, Vec3.mk3, Vec3.x, Vec3.y, Vec3.z,
    Except.ok.injEq, Vec3.mk.injEq, Prod.mk.injEq]
  norm_num

/-- The upper-left viewport corner is `(-16/9, 1, -1)`. -/
theorem viewport_upper_left_eq :
    viewport_upper_left = .ok (Vec3.mk3 (-16 / 9) 1 (-1)) := by
  rw [viewport_upper_left, viewport_u_eq, exceptBind_ok, Vec3.truediv, pyDiv,
    if_neg (by norm_num : ¬(2 : ℚ) = 0), exceptBind_ok, Vec3.mul,
    exceptBind_ok, Vec3.truediv, pyDiv, if_neg (by norm_num : ¬(2 : ℚ) = 0),
    exceptBind_ok, Vec3.mul, exceptBind_ok, exceptPure_eq]
  simp only [camera_center, viewport_v, viewport_height, focal_length,
    Vec3.sub, Vec3.mk3, Vec3.x, Vec3.y, Vec3.z, Except.ok.injEq,
    Vec3.mk.injEq, Prod.mk.injEq]
  norm_num

/-- The center of pixel `(0,0)` is `(-16/9 + 1/225, 1 - 1/225, -1)`. -/
theorem pixel00_loc_eq :
    pixel00_loc = .ok (Vec3.mk3 (-133 / 75) (224 / 225) (-1)) := by
  rw [pixel00_loc, viewport_upper_left_eq, exceptBind_ok, pixel_delta_u_eq,
    exceptBind_ok, pixel_delta_v_eq, exceptBind_ok, Vec3.mul, exceptBind_ok,
    exceptPure_eq]
  simp only [Vec3.add, Vec3.mk3, Vec3.x, Vec3.y, Vec3.z, Except.ok.injEq,
    Vec3.mk.injEq, Prod.mk.injEq]
  norm_num

/-! The render loop succeeds on every pixel and every line ends in `"255"`. -/

/-- If `f` succeeds with property `P` on every element of `l`, then `l.mapM f`
succeeds with a list of the same length all of whose elements satisfy `P`. -/
theorem mapM_ok_of {α β : Type} (f : α → Except PyErr β) (P : β → Prop) :
    ∀ l : List α, (∀ a ∈ l, ∃ b, f a = .ok b ∧ P b) →
      ∃ bs : List β, l.mapM f = .ok bs ∧ bs.length = l.length ∧
        ∀ b ∈ bs, P b := by
  intro l
  induction l with
  | nil =>
    intro _
    exact ⟨[], by rw [List.mapM_nil, exceptPure_eq], rfl, by simp⟩
  | cons a t ih =>
    intro h
    obtain ⟨b, hb, hPb⟩ := h a (List.mem_cons_self a t)
    obtain ⟨bs, hbs, hlen, hP⟩ := ih (fun x hx => h x (List.mem_cons_of_mem a hx))
    refine ⟨b :: bs, ?_, by simp [hlen], ?_⟩
    · rw [List.mapM_cons, hb, exceptBind_ok, hbs, exceptBind_ok, exceptPure_eq]
    · intro x hx
      rcases List.mem_cons.1 hx with h1 | h2
      · exact h1 ▸ hPb
      · exact hP x h2

/-- Shading any direction whose z-component is `-1` (true of every ray built
by the render loop) succeeds, and the emitted line ends in `"255"`. -/
theorem shade_dir_ok (dir : Vec3) (hz : dir.z = -1) :
    ∃ l, (ray_color ⟨camera_center, dir⟩ >>= fun pixel_color =>
        pure (Color.write_color pixel_color) : Except PyErr String) = .ok l ∧
      ∃ s, l = s ++ "255" := by
  have h1 : (1 : ℚ) ≤ dir.len_squared := by
    have h := len_squared_ge_z_sq dir
    rw [hz] at h
    linarith
  have hlen : dir.length ≠ 0 := by
    rw [Vec3.length]
    exact ne_of_gt (pySqrt_pos _ (by linarith))
  obtain ⟨c, hc, _, s, hs⟩ := ray_color_blue_one ⟨camera_center, dir⟩ hlen
  exact ⟨_, by rw [hc, exceptBind_ok, exceptPure_eq], s, hs⟩

/-- Every iteration of the pixel loop succeeds and emits a line ending in
`"255"`, as long as the pixel grid lies in the plane `z = -1` (the deltas
have no z-component and pixel `(0,0)` has `z = -1`). -/
theorem pixel_line_ok (p00 du dv : Vec3) (hp : p00.z = -1) (hdu : du.z = 0)
    (hdv : dv.z = 0) (i j : ℕ) :
    ∃ l, pixel_line p00 du dv i j = .ok l ∧ ∃ s, l = s ++ "255" := by
  simp only [pixel_line, Vec3.mul, exceptBind_ok]
  apply shade_dir_ok
  simp only [Vec3.sub, Vec3.add, Vec3.mk3, Vec3.z, camera_center] at *
  rw [hdu, hdv, hp]
  norm_num

/-- The full double loop: `render_lines` succeeds with exactly `256 * 256`
lines, each ending in `"255"`. -/
theorem render_lines_ok :
    ∃ L, render_lines = .ok L ∧ L.length = 256 * 256 ∧
      ∀ line ∈ L, ∃ s, line = s ++ "255" := by
  rw [render_lines, pixel00_loc_eq, exceptBind_ok, pixel_delta_u_eq,
    exceptBind_ok, pixel_delta_v_eq, exceptBind_ok]
  have hp : (Vec3.mk3 (-133 / 75) (224 / 225) (-1)).z = -1 := rfl
  have hdu : (Vec3.mk3 (2 / 225) 0 0).z = 0 := rfl
  have hdv : (Vec3.mk3 0 (-2 / 225) 0).z = 0 := rfl
  obtain ⟨rows, hrows, hrowslen, hrowsP⟩ := mapM_ok_of _
    (fun row : List String =>
      row.length = 256 ∧ ∀ line ∈ row, ∃ s, line = s ++ "255")
    (List.range img_height)
    (fun j _ => by
      obtain ⟨row, h1, h2, h3⟩ := mapM_ok_of _ (fun line => ∃ s, line = s ++ "255")
        (List.range img_width)
        (fun i _ => pixel_line_ok _ _ _ hp hdu hdv i j)
      exact ⟨row, h1, by rw [h2, List.length_range, img_width], h3⟩)
  rw [hrows, exceptBind_ok, exceptPure_eq]
  refine ⟨rows.flatten, rfl, ?_, ?_⟩
  · have hmap : List.map List.length rows =
        List.replicate (List.map List.length rows).length 256 := by
      apply List.eq_replicate_of_mem
      intro x hx
      rw [List.mem_map] at hx
      obtain ⟨row, hrow, hxeq⟩ := hx
      rw [← hxeq]
      exact (hrowsP row hrow).1
    rw [List.length_flatten, hmap, List.sum_replicate, smul_eq_mul,
      List.length_map, hrowslen, List.length_range, img_height]
  · intro line hline
    rw [List.mem_flatten] at hline
    obtain ⟨row, hrow, hmem⟩ := hline
    exact (hrowsP row hrow).2 line hmem

/-- The header text evaluates to the three lines `P3`, `256 256`, `255`. -/
theorem header_lines_eq : header_lines = ["P3", "256 256", "255"] := rfl

/-! Claim theorems. -/

/-- C2: in-place addition `v += w` and in-place scalar multiplication `v *= t`
do NOT mutate and return the receiver: because the components live in an
immutable tuple, the very first item assignment in `__iadd__` / `__imul__`
raises `TypeError`, for every receiver and argument.  (This refutes the claim
that the operations succeed; the code, not the claim, is at fault.) -/
theorem c2_inplace_ops_raise_typeerror :
    ∀ (v w : Vec3) (t : ℚ),
      v.iadd w = .error .typeError ∧ v.imul t = .error .typeError :=
  fun _ _ _ => ⟨rfl, rfl⟩

/-- C3: `Color * Color` does NOT return the per-channel product: the body of
`Color.__mul__` evaluates `self.x * other` with `other` a `Color`, and
`float * Color` raises `TypeError`, for every pair of colors.  (This refutes
the claim that the multiplication succeeds; the code, not the claim, is at
fault.) -/
theorem c3_color_mul_color_raises_typeerror :
    ∀ c d : Color, Color.mul c (.vec d) = .error .typeError :=
  fun _ _ => rfl

/-- C4 (counterexample): at the concrete input `Vec3(1,2,3) / 0`, scalar
division signals `ZeroDivisionError` and returns no value, contradicting the
claim that division by zero silently propagates Inf/NaN into a result. -/
theorem c4_counterexample :
    (Vec3.mk3 1 2 3).truediv 0 = .error .zeroDivisionError ∧
      ((Vec3.mk3 1 2 3).truediv 0).toOption = none :=
  ⟨rfl, rfl⟩

/-- C4 (amended): for every `Vec3 v`, the division `v / 0` raises
`ZeroDivisionError` (from evaluating `1.0 / t` in `__truediv__`); it does not
return a vector at all, so no Inf/NaN components are ever produced. -/
theorem c4_div_by_zero_raises :
    ∀ v : Vec3, v.truediv 0 = .error .zeroDivisionError :=
  fun _ => rfl

/-- Evaluation helper: the serialized line of the exact color `(0.5, 0.7, 1.0)`. -/
theorem write_color_skyblue :
    Color.write_color (Vec3.mk3 0.5 0.7 1) = "127 179 255" := by
  simp only [Color.write_color, Vec3.mk3]
  rw [show (255.999 : ℚ) * 0.5 = 127.9995 by norm_num,
    show (255.999 : ℚ) * 0.7 = 179.1993 by norm_num,
    show (255.999 : ℚ) * 1 = 255.999 by norm_num,
    pyInt_eq_floor _ (by norm_num), pyInt_eq_floor _ (by norm_num),
    pyInt_eq_floor _ (by norm_num),
    show (⌊(127.9995 : ℚ)⌋ : ℤ) = 127 by norm_num [Int.floor_eq_iff],
    show (⌊(179.1993 : ℚ)⌋ : ℤ) = 179 by norm_num [Int.floor_eq_iff],
    show (⌊(255.999 : ℚ)⌋ : ℤ) = 255 by norm_num [Int.floor_eq_iff]]
  decide

/-- Evaluation helper: `ray_color` on the straight-up ray with direction
`(0, 1, 0)` computes blend parameter `a = 1` and returns `(0.5, 0.7, 1.0)`. -/
theorem ray_color_up :
    blend_param ⟨Vec3.mk3 0 0 0, Vec3.mk3 0 1 0⟩ = 1 ∧
      ray_color ⟨Vec3.mk3 0 0 0, Vec3.mk3 0 1 0⟩ = .ok (Vec3.mk3 0.5 0.7 1) := by
  have hls : (Vec3.mk3 0 1 0).len_squared = 1 := by
    norm_num [Vec3.len_squared, Vec3.mk3]
  have hlen : (Vec3.mk3 0 1 0).length = 1 := by
    rw [Vec3.length, hls]
    decide
  have ha : blend_param ⟨Vec3.mk3 0 0 0, Vec3.mk3 0 1 0⟩ = 1 := by
    rw [blend_param]
    show 0.5 * ((Vec3.mk3 0 1 0).y * (1 / (Vec3.mk3 0 1 0).length) + 1) = 1
    rw [hlen]
    norm_num [Vec3.y, Vec3.mk3]
  refine ⟨ha, ?_⟩
  rw [ray_color_eq _ (by rw [hlen]; exact one_ne_zero), ha]
  norm_num [Vec3.mk3]

/-- C5 (counterexample): for the ray with direction `(0, 1, 0)`, `ray_color`
does return the skyblue color `(0.5, 0.7, 1.0)`, but its serialization is the
line `"127 179 255"`, not the claimed `"127 178 255"`
(`int(255.999 * 0.7) = 179`). -/
theorem c5_counterexample :
    ray_color ⟨Vec3.mk3 0 0 0, Vec3.mk3 0 1 0⟩ = .ok (Vec3.mk3 0.5 0.7 1) ∧
      Color.write_color (Vec3.mk3 0.5 0.7 1) = "127 179 255" ∧
      "127 179 255" ≠ "127 178 255" :=
  ⟨ray_color_up.2, write_color_skyblue, by decide⟩

/-- C5 (amended): for a ray whose direction is `(0, 1, 0)`, `ray_color`
computes `a = 1`, returns the skyblue color `(0.5, 0.7, 1.0)`, and the
serialized line is exactly `"127 179 255"`. -/
theorem c5_up_ray_emits_127_179_255 :
    blend_param ⟨Vec3.mk3 0 0 0, Vec3.mk3 0 1 0⟩ = 1 ∧
      ∃ c, ray_color ⟨Vec3.mk3 0 0 0, Vec3.mk3 0 1 0⟩ = .ok c ∧
        c = Vec3.mk3 0.5 0.7 1 ∧ Color.write_color c = "127 179 255" :=
  ⟨ray_color_up.1, _, ray_color_up.2, rfl, write_color_skyblue⟩

/-- C6: for a color with all three channels in `[0, 1)`, serialization maps
each channel to `⌊255.999 * channel⌋` (truncation equals floor there), an
integer in `[0, 255]`, and emits the three values space-separated. -/
theorem c6_serialize_is_floor (c : Color)
    (hr : 0 ≤ c.x ∧ c.x < 1) (hg : 0 ≤ c.y ∧ c.y < 1) (hb : 0 ≤ c.z ∧ c.z < 1) :
    Color.write_color c =
      toString ⌊(255.999 : ℚ) * c.x⌋ ++ " " ++ toString ⌊(255.999 : ℚ) * c.y⌋
        ++ " " ++ toString ⌊(255.999 : ℚ) * c.z⌋ ∧
      (0 ≤ ⌊(255.999 : ℚ) * c.x⌋ ∧ ⌊(255.999 : ℚ) * c.x⌋ ≤ 255) ∧
      (0 ≤ ⌊(255.999 : ℚ) * c.y⌋ ∧ ⌊(255.999 : ℚ) * c.y⌋ ≤ 255) ∧
      (0 ≤ ⌊(255.999 : ℚ) * c.z⌋ ∧ ⌊(255.999 : ℚ) * c.z⌋ ≤ 255) := by
  have key : ∀ q : ℚ, 0 ≤ q → q < 1 →
      0 ≤ ⌊(255.999 : ℚ) * q⌋ ∧ ⌊(255.999 : ℚ) * q⌋ ≤ 255 := by
    intro q h0 h1
    constructor
    · exact Int.le_floor.2 (by push_cast; positivity)
    · have : ⌊(255.999 : ℚ) * q⌋ < 256 := Int.floor_lt.2 (by push_cast; nlinarith)
      omega
  refine ⟨?_, key _ hr.1 hr.2, key _ hg.1 hg.2, key _ hb.1 hb.2⟩
  simp only [Color.write_color]
  rw [pyInt_eq_floor _ (by have := hr.1; simp only [Vec3.x] at this; positivity),
    pyInt_eq_floor _ (by have := hg.1; simp only [Vec3.y] at this; positivity),
    pyInt_eq_floor _ (by have := hb.1; simp only [Vec3.z] at this; positivity)]
  rfl

/-- C6 (witness): at the concrete color `(0.5, 0.5, 0.5)` the hypotheses hold
and serialization emits exactly the line `"127 127 127"`. -/
theorem c6_serialize_is_floor_witness :
    Color.write_color (Vec3.mk3 (1/2) (1/2) (1/2)) =
      toString ⌊(255.999 : ℚ) * (Vec3.mk3 (1/2) (1/2) (1/2)).x⌋ ++ " " ++
        toString ⌊(255.999 : ℚ) * (Vec3.mk3 (1/2) (1/2) (1/2)).y⌋ ++ " " ++
        toString ⌊(255.999 : ℚ) * (Vec3.mk3 (1/2) (1/2) (1/2)).z⌋ ∧
      Color.write_color (Vec3.mk3 (1/2) (1/2) (1/2)) = "127 127 127" := by
  have h := (c6_serialize_is_floor (Vec3.mk3 (1/2) (1/2) (1/2))
    (by norm_num [Vec3.x, Vec3.mk3]) (by norm_num [Vec3.y, Vec3.mk3])
    (by norm_num [Vec3.z, Vec3.mk3])).1
  refine ⟨h, ?_⟩
  rw [h]
  simp only [Vec3.mk3, Vec3.x, Vec3.y, Vec3.z]
  rw [show (255.999 : ℚ) * (1/2) = 127.9995 by norm_num,
    show (⌊(127.9995 : ℚ)⌋ : ℤ) = 127 by norm_num [Int.floor_eq_iff]]
  decide

/-- C7: the cross product is anti-commutative on the embedded `Vec3`:
`a.cross(b) = -(b.cross(a))` for all vectors `a`, `b`. -/
theorem c7_cross_anticomm :
    ∀ a b : Vec3, a.cross b = (b.cross a).neg := by
  rintro ⟨⟨a1, a2, a3⟩⟩ ⟨⟨b1, b2, b3⟩⟩
  simp only [Vec3.cross, Vec3.neg, Vec3.mk3, Vec3.x, Vec3.y, Vec3.z,
    Vec3.mk.injEq, Prod.mk.injEq]
  refine ⟨by ring, by ring, by ring⟩

/-- C8: indexed access `v[i]` returns the components `v.x`, `v.y`, `v.z`
for `i = 0, 1, 2`, and raises `AssertionError` (the `assert 0 <= index < 3`
contract) for every index outside `[0, 3)`, returning no value. -/
theorem c8_getitem_contract :
    (∀ v : Vec3,
        v.getitem 0 = .ok v.x ∧ v.getitem 1 = .ok v.y ∧ v.getitem 2 = .ok v.z) ∧
      ∀ (v : Vec3) (i : ℤ), ¬(0 ≤ i ∧ i < 3) →
        v.getitem i = .error .assertionError := by
  constructor
  · intro v
    refine ⟨?_, ?_, ?_⟩ <;> simp [Vec3.getitem, Vec3.x, Vec3.y, Vec3.z]
  · intro v i h
    simp [Vec3.getitem, h]

/-- C8 (witness): at the concrete vector `Vec3(1,2,3)`, the out-of-range
indices `3` and `-1` both raise `AssertionError`. -/
theorem c8_getitem_contract_witness :
    Vec3.getitem (Vec3.mk3 1 2 3) 3 = .error .assertionError ∧
      Vec3.getitem (Vec3.mk3 1 2 3) (-1) = .error .assertionError :=
  ⟨c8_getitem_contract.2 _ 3 (by simp),
   c8_getitem_contract.2 _ (-1) (by norm_num)⟩

/-- C1: the actual output of the program with its built-in constants.  Even
though `image_width = 400` and `image_height = 225` are computed (and drive
the viewport geometry), the loop bounds are overridden by
`img_width = img_height = 256`, so the emitted stream begins with the header
lines `P3`, `256 256`, `255` — not `400 225` — followed by exactly
`256 * 256` (not `400 * 225`) pixel lines. -/
theorem c1_program_emits_256x256 :
    ∃ L, mainOutput = .ok L ∧
      L.take 3 = ["P3", "256 256", "255"] ∧
      L.length = 3 + 256 * 256 ∧
      L.take 3 ≠ ["P3", "400 225", "255"] := by
  obtain ⟨pix, hpix, hlen, _⟩ := render_lines_ok
  rw [mainOutput, hpix, exceptBind_ok, exceptPure_eq, header_lines_eq]
  refine ⟨_, rfl, ?_, ?_, ?_⟩
  · simp
  · simp [hlen]
  · simp

/-- C9: the render is deterministic — any two runs of the program (the source
reads no input and uses no randomness, so a run is a function of its build-time
constants alone) produce identical output streams. -/
theorem c9_two_runs_identical :
    ∀ run1 run2 : ℕ, runProgram run1 = runProgram run2 :=
  fun _ _ => rfl

/-- C10: for every ray whose direction has nonzero computed length,
`ray_color` succeeds and the returned color has blue channel exactly `1`
(both blend endpoints have blue `1`); consequently the render loop succeeds
and every pixel line it emits ends with `"255"`. -/
theorem c10_blue_is_one :
    (∀ r : Ray, r.direction.length ≠ 0 →
        ∃ c, ray_color r = .ok c ∧ c.z = 1) ∧
      ∃ L, render_lines = .ok L ∧ ∀ line ∈ L, ∃ s, line = s ++ "255" := by
  constructor
  · intro r h
    obtain ⟨c, hc, hz, _⟩ := ray_color_blue_one r h
    exact ⟨c, hc, hz⟩
  · obtain ⟨L, hL, _, hP⟩ := render_lines_ok
    exact ⟨L, hL, hP⟩

/-- C10 (witness): the ray with direction `(0, 1, 0)` has nonzero computed
length, and `ray_color` on it returns a color with blue channel `1`. -/
theorem c10_blue_is_one_witness :
    ∃ c, ray_color ⟨Vec3.mk3 0 0 0, Vec3.mk3 0 1 0⟩ = .ok c ∧ c.z = 1 :=
  c10_blue_is_one.1 ⟨Vec3.mk3 0 0 0, Vec3.mk3 0 1 0⟩ (by
    have hls : (Vec3.mk3 0 1 0).len_squared = 1 := by
      norm_num [Vec3.len_squared, Vec3.mk3]
    show (Vec3.mk3 0 1 0).length ≠ 0
    rw [Vec3.length, hls]
    decide)

end RayTrace
